import Mathlib

/-!
Shallow embedding of `orchestrator_demo.py`, a mock medical multi-agent
orchestrator: a vision stub returning a fixed diagnostic record, a validation
stub performing a static table lookup, a report formatter, and an interactive
menu loop.  Python dictionaries with a fixed key set become structures; keys
that are absent in some branches become `Option` fields; `dict.get` with a
default becomes `Option.getD`.  The ambient clock (`datetime.now()`) is passed
in as an explicit `now : String` argument.  The stubs' `print` and
`time.sleep` side effects carry no data and are not modelled; which stubs get
invoked is recorded explicitly in a call trace.
-/

/-! ## String helpers (kernel-reducible models of Python string primitives) -/

/-- Substring containment: `pat` occurs contiguously inside `s`. -/
def containsStr (s pat : String) : Prop := pat.data <:+: s.data

theorem strData_append (a b : String) : (a ++ b).data = a.data ++ b.data := rfl

theorem containsStr_left (a b p : String) (h : containsStr a p) : containsStr (a ++ b) p := by
  obtain ⟨u, v, huv⟩ := h
  exact ⟨u, v ++ b.data, by rw [strData_append, ← huv]; simp⟩

theorem containsStr_right (a b p : String) (h : containsStr b p) : containsStr (a ++ b) p := by
  obtain ⟨u, v, huv⟩ := h
  exact ⟨a.data ++ u, v, by rw [strData_append, ← huv]; simp⟩

theorem containsStr_self (p : String) : containsStr p p := ⟨[], [], by simp⟩

theorem containsStr_glue2 (a x y : String) : containsStr ((a ++ x) ++ y) (x ++ y) :=
  ⟨a.data, [], by simp [strData_append]⟩

theorem strAppend_ne_empty_left (a b : String) (h : a.data ≠ []) : a ++ b ≠ "" := by
  intro he
  have hd : (a ++ b).data = ("" : String).data := congrArg String.data he
  rw [strData_append] at hd
  exact h (List.append_eq_nil.mp hd).1

/-- Models Python `str.upper` (character-wise upper-casing). -/
def strUpper (s : String) : String := ⟨s.data.map Char.toUpper⟩

/-- Models Python `str.strip`: drop leading and trailing whitespace. -/
def pyStrip (s : String) : String :=
  ⟨((s.data.dropWhile Char.isWhitespace).reverse.dropWhile Char.isWhitespace).reverse⟩

/-- Models Python format spec `.1f` for a nonnegative rational: round to the
nearest tenth (half away from zero can not occur at the values this script
produces) and print with exactly one digit after the point. -/
def formatFixed1 (q : ℚ) : String :=
  let x := q * 10
  let n : ℤ := (2 * x.num + x.den).fdiv (2 * (x.den : ℤ))
  toString (n / 10) ++ "." ++ toString (n % 10)

/-- Number of decimal digits needed for the terminating decimal expansion of
`q` (capped at 17, the precision relevant to Python floats). -/
def decDigits (q : ℚ) : Nat :=
  (((List.range 18).find? fun k => (q * (10 : ℚ) ^ k).den == 1).getD 17)

/-- Models Python `str` on the nonnegative float sample values this script
renders (shortest terminating decimal expansion, one digit minimum after the
point). -/
def pyFloatStr (q : ℚ) : String :=
  let k := decDigits q
  if k = 0 then toString q.num ++ ".0"
  else
    let n := (q * (10 : ℚ) ^ k).num.natAbs
    let s := Nat.repr n
    let s := if s.length < k + 1 then String.mk (List.replicate (k + 1 - s.length) ('0')) ++ s else s
    s.take (s.length - k) ++ "." ++ s.drop (s.length - k)

/-! ## Data model -/

/-- The JSON object produced by the mock vision agent (`call_vision_node`).
Numeric fields are exact rationals standing for the Python float literals. -/
structure DiagnosticRecord where
  agent_id : String
  agent_type : String
  timestamp : String
  diagnosis : String
  confidence_score : ℚ
  stability_check : String
  stability_score : ℚ
  tumor_size_cm : ℚ
  tumor_location : String
  explanation_path : String
  model_version : String
deriving Repr, DecidableEq

/-- An entry of the `knowledge_base` dictionary in `call_validation_agent`.
The fallback record carries only `severity`, so the other three keys are
`Option`-valued. -/
structure ValidationRecord where
  severity : String
  common_treatments : Option (List String)
  survival_rate : Option String
  icd_code : Option String
deriving Repr, DecidableEq

/-- Trace marker for an invocation of one of the two agent stubs. -/
inductive AgentCall where
  | vision (image_path : String)
  | validation (diagnosis : String)
deriving Repr, DecidableEq

/-! ## The two agent stubs -/

/-- `call_vision_node`: returns the fixed sample diagnostic record; only the
timestamp (the ambient clock, passed as `now`) varies.  The `image_path`
argument is only printed, never used. -/
def call_vision_node (image_path : String) (now : String) : DiagnosticRecord :=
  { agent_id := "vision_expert_01"
    agent_type := "2.5D_Attention_UNet"
    timestamp := now
    diagnosis := "Glioma"
    confidence_score := 0.94
    stability_check := "PASSED"
    stability_score := 0.9812
    tumor_size_cm := 2.45
    tumor_location := "Temporal Lobe (Approximated)"
    explanation_path := "./outputs/gradcam_heatmap.png"
    model_version := "v1.0.0" }

/-- `call_validation_agent`: `knowledge_base.get(diagnosis, {"severity": "Unknown"})`,
an exact-match lookup in the static three-entry table. -/
def call_validation_agent (diagnosis : String) : ValidationRecord :=
  if diagnosis = "Glioma" then
    { severity := "High"
      common_treatments := some ["Surgery", "Radiation Therapy", "Chemotherapy"]
      survival_rate := some ("Variable (depends on grade)")
      icd_code := some ("C71.9") }
  else if diagnosis = "Meningioma" then
    { severity := "Low to Moderate"
      common_treatments := some ["Observation", "Surgery", "Radiation"]
      survival_rate := some ("Generally favorable")
      icd_code := some ("D32.9") }
  else if diagnosis = "No Tumor" then
    { severity := "None"
      common_treatments := some ["None required"]
      survival_rate := some ("N/A")
      icd_code := some ("N/A") }
  else
    { severity := "Unknown"
      common_treatments := none
      survival_rate := none
      icd_code := none }

/-! ## The orchestrator -/

/-- Mutable attributes set by `MedicalOrchestrator.__init__`. -/
structure MedicalOrchestrator where
  system_prompt : String
  conversation_history : List String
deriving Repr, DecidableEq

/-- `MedicalOrchestrator.__init__`. -/
def MedicalOrchestrator.mkInit : MedicalOrchestrator :=
  { system_prompt := "You are a helpful medical assistant. \n        Use specialized tools for precise diagnosis. \n        Always validate findings with knowledge graphs."
    conversation_history := [] }

/-- `synthesize_response`: the f-string template of the clinical report,
transcribed byte for byte (including trailing blanks after the interpolated
date and agent fields).  Each box-rule line of the template is a run of 62
`═` characters; the runs are split 31 + 31 across adjacent literals here, the
appends preserving the exact template text. -/
def synthesize_response (vision_data : DiagnosticRecord) (validation_data : ValidationRecord) : String :=
  let confidence_pct := vision_data.confidence_score * 100
  let stability_status := if vision_data.stability_check = "PASSED" then "✅ Stable" else "⚠️ Unstable"
  "\n╔═══════════════════════════════"
    ++ "═══════════════════════════════╗\n║          🏥 AUTOMATED PRELIMINARY DIAGNOSTIC REPORT          ║\n╠═══════════════════════════════"
    ++ "═══════════════════════════════╣\n║  Date: "
    ++ vision_data.timestamp.take 19
    ++ "                          \n║  Agent: "
    ++ vision_data.agent_id
    ++ " ("
    ++ vision_data.model_version
    ++ ")              \n╠═══════════════════════════════"
    ++ "═══════════════════════════════╣\n║                      PRIMARY FINDING                         ║\n╠═══════════════════════════════"
    ++ "═══════════════════════════════╣\n║  Diagnosis: "
    ++ strUpper vision_data.diagnosis
    ++ "\n║  Location:  "
    ++ vision_data.tumor_location
    ++ "\n║  Size:      "
    ++ pyFloatStr vision_data.tumor_size_cm
    ++ " cm\n╠═══════════════════════════════"
    ++ "═══════════════════════════════╣\n║                      AI CONFIDENCE                           ║\n╠═══════════════════════════════"
    ++ "═══════════════════════════════╣\n║  Confidence Score:  "
    ++ formatFixed1 confidence_pct
    ++ "%"
    ++ "\n║  Stability Check:   "
    ++ stability_status
    ++ "\n║  Stability Score:   "
    ++ pyFloatStr vision_data.stability_score
    ++ "\n╠═══════════════════════════════"
    ++ "═══════════════════════════════╣\n║                 KNOWLEDGE GRAPH VALIDATION                   ║\n╠═══════════════════════════════"
    ++ "═══════════════════════════════╣\n║  Severity Level:    "
    ++ validation_data.severity
    ++ "\n"
    ++ "║  ICD-10 Code:       "
    ++ validation_data.icd_code.getD ("N/A")
    ++ "\n"
    ++ "║  Common Treatments: "
    ++ String.intercalate (", ") (validation_data.common_treatments.getD ["N/A"])
    ++ "\n╠═══════════════════════════════"
    ++ "═══════════════════════════════╣\n║                      NEXT STEPS                              ║\n╠═══════════════════════════════"
    ++ "═══════════════════════════════╣\n║  1. Review XAI Saliency Map: "
    ++ vision_data.explanation_path
    ++ "\n║  2. Consult with specialist for confirmation\n║  3. Schedule follow-up imaging if required\n╚═══════════════════════════════"
    ++ "═══════════════════════════════╝\n\n⚠️ DISCLAIMER: This is an AI-assisted preliminary analysis.\n   Final diagnosis must be confirmed by a qualified physician.\n"

/-- Python truthiness of the optional `image_path` argument: `None` and the
empty string are falsy, any other string is truthy. -/
def truthyStr : Option String → Bool
  | none => false
  | some s => s != ""

/-- `process_request(self, user_query, image_path=None)`.  Returns the
response string, the orchestrator state after the call (the method never
assigns to `self`), and the trace of agent-stub invocations in order. -/
def MedicalOrchestrator.process_request (self : MedicalOrchestrator) (user_query : String)
    (image_path : Option String) (now : String) :
    String × MedicalOrchestrator × List AgentCall :=
  if truthyStr image_path then
    let ip := image_path.getD ""
    let vision_data := call_vision_node ip now
    let validation_data := call_validation_agent vision_data.diagnosis
    (synthesize_response vision_data validation_data, self,
      [AgentCall.vision ip, AgentCall.validation vision_data.diagnosis])
  else
    ("[Orchestrator] ⚠️ Please provide an MRI image for analysis.", self, [])

/-- Folds a sequence of `process_request` calls (query, image path, clock
reading) over an orchestrator, keeping the resulting state. -/
def runRequests (o : MedicalOrchestrator) : List (String × Option String × String) → MedicalOrchestrator
  | [] => o
  | (q, ip, now) :: rest => runRequests (o.process_request q ip now).2.1 rest

/-! ## The interactive menu loop -/

/-- The menu choice actually dispatched on: `input(...).strip()`. -/
def menu_choice (line : String) : String := pyStrip line

/-- One iteration of the `run_interactive_demo` loop body, applied to the
stripped choice.  Returns (loop keeps running, invalid-option message
printed).  Choices `"1"` and `"2"` print (a report, the architecture diagram)
and continue; `"3"` breaks out of the loop; anything else prints the
invalid-option message and continues. -/
def run_interactive_demo_step (choice : String) : Bool × Bool :=
  if choice = "1" then (true, false)
  else if choice = "2" then (true, false)
  else if choice = "3" then (false, false)
  else (true, true)

/-- Runs the menu loop on a list of raw input lines; `true` iff the loop
reaches `break` (choice `"3"`) before the lines run out. -/
def runMenu : List String → Bool
  | [] => false
  | line :: rest =>
    if (run_interactive_demo_step (menu_choice line)).1 then runMenu rest else true

theorem strAppend_ne_empty_right (a b : String) (h : b.data ≠ []) : a ++ b ≠ "" := by
  intro he
  have hd : (a ++ b).data = ("" : String).data := congrArg String.data he
  rw [strData_append] at hd
  exact h (List.append_eq_nil.mp hd).2

/-! ## Claims -/

/-- C2: with no image reference (the default `None`), `process_request`
returns exactly the fixed warning string and performs no vision-stub and no
validation-stub call. -/
theorem c2_process_request_no_image (self : MedicalOrchestrator) (q now : String) :
    self.process_request q none now =
      ("[Orchestrator] ⚠️ Please provide an MRI image for analysis.", self, []) := rfl

/-- C9: the routing check is a truthiness test, so the empty string as image
reference takes the no-image branch — the fixed warning string, no stub
calls — exactly as when the argument is omitted. -/
theorem c9_empty_string_image_falsy (self : MedicalOrchestrator) (q now : String) :
    self.process_request q (some ("")) now =
      ("[Orchestrator] ⚠️ Please provide an MRI image for analysis.", self, []) ∧
    self.process_request q (some ("")) now = self.process_request q none now :=
  ⟨rfl, rfl⟩

/-- C3: the validation lookup returns severity `High` / code `C71.9` for
`Glioma`, severity `Low to Moderate` / code `D32.9` for `Meningioma`, and for
any label outside the three-entry table exactly the fallback record with
severity `Unknown` and no code or treatments. -/
theorem c3_validation_lookup :
    (call_validation_agent ("Glioma")).severity = "High" ∧
    (call_validation_agent ("Glioma")).icd_code = some ("C71.9") ∧
    (call_validation_agent ("Meningioma")).severity = "Low to Moderate" ∧
    (call_validation_agent ("Meningioma")).icd_code = some ("D32.9") ∧
    ∀ d : String, d ≠ "Glioma" → d ≠ "Meningioma" → d ≠ "No Tumor" →
      call_validation_agent d =
        { severity := "Unknown", common_treatments := none, survival_rate := none,
          icd_code := none } := by
  refine ⟨rfl, rfl, rfl, rfl, ?_⟩
  intro d h1 h2 h3
  simp [call_validation_agent, h1, h2, h3]

/-- Witness for C3 at the unrecognized label `Unknown Tumor`. -/
theorem c3_witness :
    call_validation_agent ("Unknown Tumor") =
      { severity := "Unknown", common_treatments := none, survival_rate := none,
        icd_code := none } :=
  c3_validation_lookup.2.2.2.2 ("Unknown Tumor") (by decide) (by decide) (by decide)

/-- C4: `process_request` leaves the orchestrator state untouched — after any
single call and after any sequence of calls the state (in particular the
conversation-history list, which stays empty, and the system prompt) is
exactly the initial one. -/
theorem c4_state_unchanged :
    (∀ (self : MedicalOrchestrator) (q : String) (ip : Option String) (now : String),
        (self.process_request q ip now).2.1 = self) ∧
    (∀ (o : MedicalOrchestrator) (reqs : List (String × Option String × String)),
        runRequests o reqs = o) ∧
    (∀ reqs : List (String × Option String × String),
        (runRequests MedicalOrchestrator.mkInit reqs).conversation_history = [] ∧
        (runRequests MedicalOrchestrator.mkInit reqs).system_prompt =
          MedicalOrchestrator.mkInit.system_prompt) := by
  have hstep : ∀ (self : MedicalOrchestrator) (q : String) (ip : Option String) (now : String),
      (self.process_request q ip now).2.1 = self := by
    intro self q ip now
    cases h : truthyStr ip <;> simp [MedicalOrchestrator.process_request, h]
  have hrun : ∀ (reqs : List (String × Option String × String)) (o : MedicalOrchestrator),
      runRequests o reqs = o := by
    intro reqs
    induction reqs with
    | nil => intro o; rfl
    | cons r rest ih =>
      intro o
      obtain ⟨q, ip, now⟩ := r
      rw [runRequests, hstep, ih]
  exact ⟨hstep, fun o reqs => hrun reqs o, fun reqs => by rw [hrun]; exact ⟨rfl, rfl⟩⟩

/-- C8: the vision stub's output does not depend on the image reference —
every field except the timestamp is the fixed sample value, and two calls
under the same clock reading agree on everything. -/
theorem c8_vision_fixed_output (p₁ p₂ now : String) :
    (call_vision_node p₁ now).agent_id = "vision_expert_01" ∧
    (call_vision_node p₁ now).agent_type = "2.5D_Attention_UNet" ∧
    (call_vision_node p₁ now).timestamp = now ∧
    (call_vision_node p₁ now).diagnosis = "Glioma" ∧
    (call_vision_node p₁ now).confidence_score = 0.94 ∧
    (call_vision_node p₁ now).stability_check = "PASSED" ∧
    (call_vision_node p₁ now).stability_score = 0.9812 ∧
    (call_vision_node p₁ now).tumor_size_cm = 2.45 ∧
    (call_vision_node p₁ now).tumor_location = "Temporal Lobe (Approximated)" ∧
    (call_vision_node p₁ now).explanation_path = "./outputs/gradcam_heatmap.png" ∧
    (call_vision_node p₁ now).model_version = "v1.0.0" ∧
    call_vision_node p₁ now = call_vision_node p₂ now :=
  ⟨rfl, rfl, rfl, rfl, rfl, rfl, rfl, rfl, rfl, rfl, rfl, rfl⟩

/-- C7: in the menu loop, the (stripped) choice `3` breaks out of the loop,
and any choice outside `1`, `2`, `3` prints the invalid-option message and
leaves the loop running, so the menu is shown again on the next iteration. -/
theorem c7_menu_loop :
    run_interactive_demo_step ("3") = (false, false) ∧
    (∀ rest : List String, runMenu ("3" :: rest) = true) ∧
    (∀ choice : String, choice ∉ (["1", "2", "3"] : List String) →
      run_interactive_demo_step choice = (true, true)) ∧
    (∀ (line : String) (rest : List String),
      menu_choice line ∉ (["1", "2", "3"] : List String) →
      runMenu (line :: rest) = runMenu rest) := by
  have hstep : ∀ choice : String, choice ∉ (["1", "2", "3"] : List String) →
      run_interactive_demo_step choice = (true, true) := by
    intro c hc
    simp only [List.mem_cons, List.mem_singleton, not_or] at hc
    obtain ⟨h1, h2, h3⟩ := hc
    simp [run_interactive_demo_step, h1, h2, h3]
  refine ⟨rfl, ?_, hstep, ?_⟩
  · intro rest
    have h1 : (run_interactive_demo_step (menu_choice ("3"))).1 = false := by decide
    simp [runMenu, h1]
  · intro line rest h
    have h1 : (run_interactive_demo_step (menu_choice line)).1 = true := by
      rw [hstep _ h]
    simp [runMenu, h1]

/-- Witness for C7 at the invalid choice `hello`. -/
theorem c7_witness :
    run_interactive_demo_step ("hello") = (true, true) ∧
    runMenu ["hello"] = runMenu [] :=
  ⟨c7_menu_loop.2.2.1 ("hello") (by decide), c7_menu_loop.2.2.2 ("hello") [] (by decide)⟩

/-- C1: with a (truthy) image reference, `process_request` invokes the vision
stub on that reference and then the validation stub on exactly the diagnosis
field of the vision result, and the returned report is a non-empty string
containing the upper-cased diagnosis label and the confidence score rendered
as a percentage with one decimal place. -/
theorem c1_process_request_with_image (self : MedicalOrchestrator) (q ip now : String)
    (h : ip ≠ "") :
    (self.process_request q (some ip) now).2.2 =
      [AgentCall.vision ip, AgentCall.validation ((call_vision_node ip now).diagnosis)] ∧
    (self.process_request q (some ip) now).1 ≠ "" ∧
    containsStr (self.process_request q (some ip) now).1
      (strUpper ((call_vision_node ip now).diagnosis)) ∧
    containsStr (self.process_request q (some ip) now).1
      (formatFixed1 ((call_vision_node ip now).confidence_score * 100) ++ "%") := by
  have ht : truthyStr (some ip) = true := by simp [truthyStr, bne_iff_ne, h]
  have hpr : self.process_request q (some ip) now =
      (synthesize_response (call_vision_node ip now)
          (call_validation_agent ((call_vision_node ip now).diagnosis)), self,
        [AgentCall.vision ip, AgentCall.validation ((call_vision_node ip now).diagnosis)]) := by
    simp [MedicalOrchestrator.process_request, ht]
  refine ⟨by rw [hpr], ?_, ?_, ?_⟩
  · rw [hpr]
    simp only [synthesize_response]
    exact strAppend_ne_empty_right _ _ (by decide)
  · rw [hpr]
    simp only [synthesize_response]
    iterate 29 (apply containsStr_left)
    exact containsStr_right _ _ _ (containsStr_self _)
  · rw [hpr]
    simp only [synthesize_response]
    iterate 20 (apply containsStr_left)
    exact containsStr_glue2 _ _ _

/-- Witness for C1 at a concrete image reference and clock reading. -/
theorem c1_witness :
    (MedicalOrchestrator.mkInit.process_request ("q") (some ("scan.jpg"))
        ("2026-01-01T00:00:00")).2.2 =
      [AgentCall.vision ("scan.jpg"),
       AgentCall.validation ((call_vision_node ("scan.jpg") ("2026-01-01T00:00:00")).diagnosis)] ∧
    (MedicalOrchestrator.mkInit.process_request ("q") (some ("scan.jpg"))
        ("2026-01-01T00:00:00")).1 ≠ "" ∧
    containsStr (MedicalOrchestrator.mkInit.process_request ("q") (some ("scan.jpg"))
        ("2026-01-01T00:00:00")).1
      (strUpper ((call_vision_node ("scan.jpg") ("2026-01-01T00:00:00")).diagnosis)) ∧
    containsStr (MedicalOrchestrator.mkInit.process_request ("q") (some ("scan.jpg"))
        ("2026-01-01T00:00:00")).1
      (formatFixed1 ((call_vision_node ("scan.jpg") ("2026-01-01T00:00:00")).confidence_score * 100)
        ++ "%") :=
  c1_process_request_with_image MedicalOrchestrator.mkInit ("q") ("scan.jpg")
    ("2026-01-01T00:00:00") (by decide)

/-- C5: a vision record with confidence score `0.94` makes the report render
the confidence as the exact string `94.0%`. -/
theorem c5_confidence_formatting (vision : DiagnosticRecord) (validation : ValidationRecord)
    (h : vision.confidence_score = 0.94) :
    containsStr (synthesize_response vision validation) ("94.0%") := by
  have he : formatFixed1 ((0.94 : ℚ) * 100) = "94.0" := by
    have hx : (0.94 : ℚ) * 100 * 10 = 940 := by norm_num
    have hnum : ((940 : ℚ)).num = 940 := by norm_num
    have hden : ((940 : ℚ)).den = 1 := by norm_num
    simp only [formatFixed1, hx, hnum, hden]
    decide
  simp only [synthesize_response, h, he]
  rw [← show ("94.0" ++ "%" : String) = "94.0%" from rfl]
  iterate 20 (apply containsStr_left)
  exact containsStr_glue2 _ _ _

/-- Witness for C5 at the stub output record. -/
theorem c5_witness :
    containsStr
      (synthesize_response (call_vision_node ("img") ("2026-01-01T00:00:00"))
        (call_validation_agent ("Glioma"))) ("94.0%") :=
  c5_confidence_formatting _ _ rfl

/-- C6: the report carries the stable-status marker exactly when the vision
record's stability check equals `PASSED`, and the unstable-status marker for
every other value. -/
theorem c6_stability_marker (vision : DiagnosticRecord) (validation : ValidationRecord) :
    (vision.stability_check = "PASSED" →
      containsStr (synthesize_response vision validation) ("✅ Stable")) ∧
    (vision.stability_check ≠ "PASSED" →
      containsStr (synthesize_response vision validation) ("⚠️ Unstable")) := by
  constructor
  · intro h
    simp only [synthesize_response, h, if_pos]
    iterate 18 (apply containsStr_left)
    exact containsStr_right _ _ _ (containsStr_self _)
  · intro h
    simp only [synthesize_response, if_neg h]
    iterate 18 (apply containsStr_left)
    exact containsStr_right _ _ _ (containsStr_self _)

/-- Witness for C6: the stub record passes the stability check; the same
record with the check overwritten takes the unstable marker. -/
theorem c6_witness :
    containsStr
      (synthesize_response (call_vision_node ("img") ("t"))
        (call_validation_agent ("Glioma"))) ("✅ Stable") ∧
    containsStr
      (synthesize_response { call_vision_node ("img") ("t") with stability_check := "FAILED" }
        (call_validation_agent ("Glioma"))) ("⚠️ Unstable") :=
  ⟨(c6_stability_marker _ _).1 rfl, (c6_stability_marker _ _).2 (by decide)⟩

/-- C10: the validation record always carries a severity (one of the four
table values), and when the code or treatments keys are absent — as in the
fallback record — the report falls back to `N/A` for the classification code
and to the single entry `N/A` for the treatment list. -/
theorem c10_validation_defaults (vision : DiagnosticRecord) (d : String) :
    (call_validation_agent d).severity ∈
      (["High", "Low to Moderate", "None", "Unknown"] : List String) ∧
    ((call_validation_agent d).icd_code = none →
      containsStr (synthesize_response vision (call_validation_agent d))
        ("║  ICD-10 Code:       N/A")) ∧
    ((call_validation_agent d).common_treatments = none →
      containsStr (synthesize_response vision (call_validation_agent d))
        ("║  Common Treatments: N/A")) := by
  refine ⟨?_, ?_, ?_⟩
  · unfold call_validation_agent
    split_ifs <;> simp
  · intro h
    simp only [synthesize_response, h, Option.getD_none]
    rw [← show ("║  ICD-10 Code:       " ++ "N/A" : String) = "║  ICD-10 Code:       N/A"
      from rfl]
    iterate 9 (apply containsStr_left)
    exact containsStr_glue2 _ _ _
  · intro h
    simp only [synthesize_response, h, Option.getD_none]
    rw [show String.intercalate (", ") (["N/A"]) = "N/A" from by decide]
    rw [← show ("║  Common Treatments: " ++ "N/A" : String) = "║  Common Treatments: N/A"
      from rfl]
    iterate 6 (apply containsStr_left)
    exact containsStr_glue2 _ _ _

/-- Witness for C10 at the unrecognized label `Unknown Tumor`. -/
theorem c10_witness :
    (call_validation_agent ("Unknown Tumor")).severity ∈
      (["High", "Low to Moderate", "None", "Unknown"] : List String) ∧
    containsStr
      (synthesize_response (call_vision_node ("img") ("t"))
        (call_validation_agent ("Unknown Tumor"))) ("║  ICD-10 Code:       N/A") ∧
    containsStr
      (synthesize_response (call_vision_node ("img") ("t"))
        (call_validation_agent ("Unknown Tumor"))) ("║  Common Treatments: N/A") :=
  ⟨(c10_validation_defaults (call_vision_node ("img") ("t")) ("Unknown Tumor")).1,
   (c10_validation_defaults (call_vision_node ("img") ("t")) ("Unknown Tumor")).2.1 (by decide),
   (c10_validation_defaults (call_vision_node ("img") ("t")) ("Unknown Tumor")).2.2 (by decide)⟩
